import Mathlib

/-!
Verification of the Ziva BI core authentication and RBAC services.

The definitions below are a shallow embedding of the TypeScript services in
src/modules/auth/auth.service.ts and the RbacService in src/modules/rbac
(the second, documented implementation in roles.guard.ts).  All scalar values
(ids, e-mail addresses, phone numbers, role names, permission keys, passwords,
raw tokens, OTP codes, timestamps) are modelled as natural numbers; the empty
or missing TypeScript string (falsy) is modelled as 0.  Database tables are
lists of rows; TypeORM findOne is the first matching list element; save of a
new row appends it and allocates the next id from a counter; save of an
existing row updates every row with its id.  Cryptographic hashes (HMAC-SHA256
for refresh tokens and OTP codes, argon2 for passwords) are idealised as
injective functions built from Nat.pair; current time is passed explicitly,
as are the random values the service draws (raw refresh tokens, OTP codes).
Thrown exceptions are an error sum; because the service runs each repository
save immediately (no transaction), operations return the error together with
the possibly already mutated database state.
-/

deriving instance DecidableEq for Except

namespace Ziva

/-- Server-side HMAC secret for refresh-token hashing (AUTH.REFRESH_HASH_SECRET). -/
def REFRESH_HASH_SECRET : Nat := 101

/-- Server-side HMAC secret for OTP hashing (AUTH.OTP_HASH_SECRET). -/
def OTP_HASH_SECRET : Nat := 102

/-- Refresh token time to live: 30 days in seconds (REFRESH_EXPIRES_IN of 30d). -/
def REFRESH_TTL : Nat := 30 * 86400

/-- HashUtil.hmac: keyed HMAC-SHA256, idealised as an injective keyed map. -/
def hmac (value secret : Nat) : Nat := Nat.pair secret value

/-- HashUtil.hmacOtp: keyed HMAC-SHA256 for OTP codes, idealised likewise. -/
def hmacOtp (value secret : Nat) : Nat := Nat.pair secret value

/-- HashUtil.hashPassword: argon2 hashing, idealised as an injective map tagged 1. -/
def hashPassword (plain : Nat) : Nat := Nat.pair 1 plain

/-- HashUtil.verifyPassword: argon2 verification of a stored hash against a candidate. -/
def verifyPassword (hash plain : Nat) : Bool := hash == hashPassword plain

/-- Row of user_tenants: the tenant-scoped membership used as authentication subject. -/
structure UserTenant where
  id : Nat
  tenant_id : Nat
  user_id : Nat
  login_email : Option Nat
  login_phone : Option Nat
  password_hash : Option Nat
  is_active : Bool
  deriving Repr, DecidableEq

/-- Row of sessions. -/
structure Session where
  id : Nat
  user_tenant_id : Nat
  device_fingerprint : Option Nat
  is_revoked : Bool
  last_accessed : Nat
  expires_at : Option Nat
  deriving Repr, DecidableEq

/-- Row of refresh_tokens: a node of a rotation chain, storing only the token hash. -/
structure RefreshToken where
  id : Nat
  session_id : Option Nat
  token_hash : Nat
  issued_at : Nat
  expires_at : Nat
  revoked_at : Option Nat
  replaced_by : Option Nat
  deriving Repr, DecidableEq

/-- Row of otp_codes. -/
structure OtpCode where
  id : Nat
  tenant_id : Nat
  subject : Nat
  purpose : Nat
  code_hash : Nat
  expires_at : Nat
  consumed_at : Option Nat
  attempts : Nat
  max_attempts : Nat
  created_at : Nat
  deriving Repr, DecidableEq

/-- Row of roles. -/
structure Role where
  id : Nat
  name : Nat
  description : Option Nat
  is_active : Bool
  deriving Repr, DecidableEq

/-- Row of permissions. -/
structure Permission where
  id : Nat
  key : Nat
  description : Option Nat
  is_active : Bool
  deriving Repr, DecidableEq

/-- Row of role_permissions (role to permission many-to-many). -/
structure RolePermission where
  id : Nat
  role_id : Nat
  permission_id : Nat
  deriving Repr, DecidableEq

/-- Row of user_roles (membership to role many-to-many). -/
structure UserRole where
  id : Nat
  user_tenant_id : Nat
  role_id : Nat
  assigned_by : Option Nat
  deriving Repr, DecidableEq

/-- The backing store: one list per table plus the id allocator. -/
structure Db where
  userTenants : List UserTenant
  sessions : List Session
  refreshTokens : List RefreshToken
  otps : List OtpCode
  roles : List Role
  permissions : List Permission
  rolePermissions : List RolePermission
  userRoles : List UserRole
  nextId : Nat
  deriving Repr, DecidableEq

/-- The empty store. -/
def Db.empty : Db :=
  { userTenants := [], sessions := [], refreshTokens := [], otps := [],
    roles := [], permissions := [], rolePermissions := [], userRoles := [],
    nextId := 0 }

/-- Errors thrown by the services, one constructor per thrown exception message. -/
inductive AuthError where
  | tenantRequired
  | refreshTokenRequired
  | sessionIdRequired
  | missingParameters
  | invalidCredentials
  | noPasswordConfigured
  | userDisabled
  | invalidRefreshToken
  | refreshTokenRevoked
  | refreshTokenExpired
  | sessionMismatch
  | sessionInvalid
  | userSessionNotFound
  | sessionNotFound
  | otpNotFound
  | otpLocked
  | otpInvalidCode
  | roleNameRequired
  | permissionKeyRequired
  | idsRequired
  | roleNotFound
  | permissionNotFound
  deriving Repr, DecidableEq

/-- refreshRepo.findOne where token_hash matches. -/
def findTokenByHash (db : Db) (h : Nat) : Option RefreshToken :=
  db.refreshTokens.find? (fun t => t.token_hash == h)

/-- sessionRepo.findOne where id matches. -/
def findSessionById (db : Db) (sid : Nat) : Option Session :=
  db.sessions.find? (fun s => s.id == sid)

/-- userTenantRepo.findOne where id matches. -/
def findUserTenantById (db : Db) (utid : Nat) : Option UserTenant :=
  db.userTenants.find? (fun u => u.id == utid)

/-- The JWT payload built for the access token (signing is not modelled). -/
structure AccessToken where
  sub : Nat
  tenant : Nat
  roles : List Nat
  permissions : List Nat
  deriving Repr, DecidableEq

/-- AuthService.resolveRolesAndPermissions: role names and permission keys for a
membership, from user_roles, roles (findByIds), role_permissions and permissions,
with no activity filtering. -/
def resolveRolesAndPermissions (db : Db) (userTenantId : Nat) :
    List Nat × List Nat :=
  let userRoles := db.userRoles.filter (fun ur => ur.user_tenant_id == userTenantId)
  if userRoles.isEmpty then ([], []) else
  let roleIds := userRoles.map (fun ur => ur.role_id)
  let roles := db.roles.filter (fun r => roleIds.contains r.id)
  let roleNames := roles.map (fun r => r.name)
  let rolePerms := db.rolePermissions.filter (fun rp => roleIds.contains rp.role_id)
  let permissionIds := (rolePerms.map (fun rp => rp.permission_id)).dedup
  if permissionIds.isEmpty then (roleNames, []) else
  let perms := db.permissions.filter (fun p => permissionIds.contains p.id)
  (roleNames, perms.map (fun p => p.key))

/-- Result of AuthService.generateRefreshTokenEntry. -/
structure RefreshEntry where
  raw : Nat
  hashed : Nat
  expiresAt : Nat
  id : Nat
  deriving Repr, DecidableEq

/-- AuthService.generateRefreshTokenEntry: hash the raw value, persist a fresh
refresh-token row bound to the given session, and hand back the raw value. -/
def generateRefreshTokenEntry (db : Db) (sessionId : Option Nat) (raw now : Nat) :
    RefreshEntry × Db :=
  let hashed := hmac raw REFRESH_HASH_SECRET
  let expiresAt := now + REFRESH_TTL
  let rt : RefreshToken :=
    { id := db.nextId, session_id := sessionId, token_hash := hashed,
      issued_at := now, expires_at := expiresAt, revoked_at := none,
      replaced_by := none }
  ({ raw := raw, hashed := hashed, expiresAt := expiresAt, id := db.nextId },
   { db with refreshTokens := db.refreshTokens ++ [rt], nextId := db.nextId + 1 })

/-- Arguments of AuthService.login. -/
structure LoginDto where
  loginEmail : Option Nat
  loginPhone : Option Nat
  password : Nat
  tenantId : Nat
  deviceFingerprint : Option Nat
  deriving Repr, DecidableEq

/-- Result of AuthService.login. -/
structure LoginResult where
  accessToken : AccessToken
  refreshToken : Nat
  refreshTokenExpiresAt : Nat
  sessionId : Nat
  userTenantId : Nat
  roles : List Nat
  permissions : List Nat
  deriving Repr, DecidableEq

/-- The where clause of the membership lookup in login: by tenant and e-mail when
an e-mail was presented, else by tenant and phone. -/
def findUserTenantByLogin (db : Db) (dto : LoginDto) : Option UserTenant :=
  match dto.loginEmail with
  | some e =>
      db.userTenants.find? (fun ut =>
        ut.tenant_id == dto.tenantId && ut.login_email == some e)
  | none =>
      db.userTenants.find? (fun ut =>
        ut.tenant_id == dto.tenantId && ut.login_phone == dto.loginPhone)

/-- AuthService.login: credential checks, session creation, role resolution and
token issuance, in source order.  The fresh raw refresh token is passed in
explicitly in place of the random generator. -/
def login (db : Db) (dto : LoginDto) (now rawRefresh : Nat) :
    Except AuthError LoginResult × Db :=
  if dto.tenantId == 0 then (.error .tenantRequired, db) else
  match findUserTenantByLogin db dto with
  | none => (.error .invalidCredentials, db)
  | some userTenant =>
    match userTenant.password_hash with
    | none => (.error .noPasswordConfigured, db)
    | some ph =>
      if !verifyPassword ph dto.password then (.error .invalidCredentials, db) else
      if !userTenant.is_active then (.error .userDisabled, db) else
      let session : Session :=
        { id := db.nextId, user_tenant_id := userTenant.id,
          device_fingerprint := dto.deviceFingerprint, is_revoked := false,
          last_accessed := now, expires_at := none }
      let db1 : Db :=
        { db with sessions := db.sessions ++ [session], nextId := db.nextId + 1 }
      let rp := resolveRolesAndPermissions db1 userTenant.id
      let payload : AccessToken :=
        { sub := userTenant.id, tenant := userTenant.tenant_id,
          roles := rp.1, permissions := rp.2 }
      let entry := generateRefreshTokenEntry db1 (some session.id) rawRefresh now
      (.ok { accessToken := payload, refreshToken := entry.1.raw,
             refreshTokenExpiresAt := entry.1.expiresAt,
             sessionId := session.id, userTenantId := userTenant.id,
             roles := rp.1, permissions := rp.2 },
       entry.2)

/-- Result of AuthService.refresh. -/
structure RefreshResult where
  accessToken : AccessToken
  refreshToken : Nat
  refreshTokenExpiresAt : Nat
  deriving Repr, DecidableEq

/-- AuthService.refresh: look the presented token up by hash, run the revoked,
expiry, session-binding and session-liveness checks in source order, then rotate:
persist a fresh token for the same session, mark the old row revoked with
replaced_by pointing at the new row, and rebuild the access token from the
membership behind the session.  The fresh raw token is passed in explicitly. -/
def refresh (db : Db) (refreshTokenRaw sessionId now newRaw : Nat) :
    Except AuthError RefreshResult × Db :=
  if refreshTokenRaw == 0 then (.error .refreshTokenRequired, db) else
  if sessionId == 0 then (.error .sessionIdRequired, db) else
  let hashed := hmac refreshTokenRaw REFRESH_HASH_SECRET
  match findTokenByHash db hashed with
  | none => (.error .invalidRefreshToken, db)
  | some stored =>
    if stored.revoked_at.isSome then (.error .refreshTokenRevoked, db) else
    if stored.expires_at < now then (.error .refreshTokenExpired, db) else
    if stored.session_id != some sessionId then (.error .sessionMismatch, db) else
    match findSessionById db sessionId with
    | none => (.error .sessionInvalid, db)
    | some session =>
      if session.is_revoked then (.error .sessionInvalid, db) else
      let gen := generateRefreshTokenEntry db (some sessionId) newRaw now
      let newEntry := gen.1
      let db2 : Db :=
        { gen.2 with refreshTokens := gen.2.refreshTokens.map (fun t =>
            if t.id == stored.id then
              { t with revoked_at := some now, replaced_by := some newEntry.id }
            else t) }
      match findUserTenantById db2 session.user_tenant_id with
      | none => (.error .userSessionNotFound, db2)
      | some userTenant =>
        let rp := resolveRolesAndPermissions db2 userTenant.id
        let payload : AccessToken :=
          { sub := userTenant.id, tenant := userTenant.tenant_id,
            roles := rp.1, permissions := rp.2 }
        (.ok { accessToken := payload, refreshToken := newEntry.raw,
               refreshTokenExpiresAt := newEntry.expiresAt }, db2)

/-- AuthService.logout: mark the session revoked and set revoked_at on every
refresh token of that session. -/
def logout (db : Db) (sessionId now : Nat) : Except AuthError Unit × Db :=
  if sessionId == 0 then (.error .sessionIdRequired, db) else
  match findSessionById db sessionId with
  | none => (.error .sessionNotFound, db)
  | some _ =>
    (.ok (),
     { db with
        sessions := db.sessions.map (fun s =>
          if s.id == sessionId then { s with is_revoked := true } else s),
        refreshTokens := db.refreshTokens.map (fun t =>
          if t.session_id == some sessionId then { t with revoked_at := some now }
          else t) })

/-- Result of AuthService.sendOtp. -/
structure OtpSendResult where
  rawCode : Nat
  expiresAt : Nat
  deriving Repr, DecidableEq

/-- AuthService.sendOtp: store the keyed hash of the code with attempts 0 and
max_attempts 5.  The random six-digit code is passed in explicitly. -/
def sendOtp (db : Db) (tenantId subject purpose code now : Nat)
    (ttlSeconds : Nat := 300) : Except AuthError OtpSendResult × Db :=
  if tenantId == 0 then (.error .tenantRequired, db) else
  if subject == 0 then (.error .missingParameters, db) else
  let codeHash := hmacOtp code OTP_HASH_SECRET
  let expiresAt := now + ttlSeconds
  let row : OtpCode :=
    { id := db.nextId, tenant_id := tenantId, subject := subject,
      purpose := purpose, code_hash := codeHash, expires_at := expiresAt,
      consumed_at := none, attempts := 0, max_attempts := 5, created_at := now }
  (.ok { rawCode := code, expiresAt := expiresAt },
   { db with otps := db.otps ++ [row], nextId := db.nextId + 1 })

/-- The where clause of the otp lookup: same tenant, subject and purpose,
not consumed, not yet expired. -/
def otpMatches (o : OtpCode) (tenantId subject purpose now : Nat) : Bool :=
  o.tenant_id == tenantId && o.subject == subject && o.purpose == purpose &&
    o.consumed_at.isNone && now < o.expires_at

/-- Accumulator step selecting the row with the greatest created_at. -/
def pickLater (acc : Option OtpCode) (o : OtpCode) : Option OtpCode :=
  match acc with
  | none => some o
  | some a => if a.created_at < o.created_at then some o else some a

/-- otpRepo.findOne with the live-challenge where clause and order created_at
descending: the matching row with the greatest created_at. -/
def latestLiveOtp (db : Db) (tenantId subject purpose now : Nat) : Option OtpCode :=
  (db.otps.filter (fun o => otpMatches o tenantId subject purpose now)).foldl
    pickLater none

/-- AuthService.verifyOtp: fetch the latest live challenge, check the attempt
lock before comparing hashes, increment attempts on mismatch, set consumed_at
on match. -/
def verifyOtp (db : Db) (tenantId subject purpose presentedCode now : Nat) :
    Except AuthError Unit × Db :=
  if tenantId == 0 || subject == 0 || purpose == 0 || presentedCode == 0 then
    (.error .missingParameters, db) else
  match latestLiveOtp db tenantId subject purpose now with
  | none => (.error .otpNotFound, db)
  | some otp =>
    if otp.max_attempts ≤ otp.attempts then (.error .otpLocked, db) else
    if hmacOtp presentedCode OTP_HASH_SECRET != otp.code_hash then
      (.error .otpInvalidCode,
       { db with otps := db.otps.map (fun o =>
           if o.id == otp.id then { o with attempts := o.attempts + 1 } else o) })
    else
      (.ok (),
       { db with otps := db.otps.map (fun o =>
           if o.id == otp.id then { o with consumed_at := some now } else o) })

/-- roleRepo.findOne where name matches. -/
def findRoleByName (db : Db) (name : Nat) : Option Role :=
  db.roles.find? (fun r => r.name == name)

/-- permRepo.findOne where key matches. -/
def findPermissionByKey (db : Db) (key : Nat) : Option Permission :=
  db.permissions.find? (fun p => p.key == key)

/-- roleRepo.findOne where id matches. -/
def findRoleById (db : Db) (roleId : Nat) : Option Role :=
  db.roles.find? (fun r => r.id == roleId)

/-- permRepo.findOne where id matches. -/
def findPermissionById (db : Db) (permissionId : Nat) : Option Permission :=
  db.permissions.find? (fun p => p.id == permissionId)

/-- rolePermRepo.findOne on the (role_id, permission_id) pair. -/
def findRolePermission (db : Db) (roleId permissionId : Nat) : Option RolePermission :=
  db.rolePermissions.find? (fun rp =>
    rp.role_id == roleId && rp.permission_id == permissionId)

/-- userRoleRepo.findOne on the (user_tenant_id, role_id) pair. -/
def findUserRole (db : Db) (userTenantId roleId : Nat) : Option UserRole :=
  db.userRoles.find? (fun ur =>
    ur.user_tenant_id == userTenantId && ur.role_id == roleId)

/-- RbacService.createRole: return the existing role of that name, else create
one (is_active defaults to true at the column). -/
def createRole (db : Db) (name : Nat) (description : Option Nat) :
    Except AuthError Role × Db :=
  if name == 0 then (.error .roleNameRequired, db) else
  match findRoleByName db name with
  | some existing => (.ok existing, db)
  | none =>
    let role : Role :=
      { id := db.nextId, name := name, description := description, is_active := true }
    (.ok role, { db with roles := db.roles ++ [role], nextId := db.nextId + 1 })

/-- RbacService.createPermission: return the existing permission of that key,
else create one. -/
def createPermission (db : Db) (key : Nat) (description : Option Nat) :
    Except AuthError Permission × Db :=
  if key == 0 then (.error .permissionKeyRequired, db) else
  match findPermissionByKey db key with
  | some existing => (.ok existing, db)
  | none =>
    let perm : Permission :=
      { id := db.nextId, key := key, description := description, is_active := true }
    (.ok perm, { db with permissions := db.permissions ++ [perm], nextId := db.nextId + 1 })

/-- RbacService.assignPermissionToRole: confirm both rows exist, then return the
existing mapping if any, else create it. -/
def assignPermissionToRole (db : Db) (roleId permissionId : Nat) :
    Except AuthError RolePermission × Db :=
  if roleId == 0 || permissionId == 0 then (.error .idsRequired, db) else
  match findRoleById db roleId with
  | none => (.error .roleNotFound, db)
  | some _ =>
    match findPermissionById db permissionId with
    | none => (.error .permissionNotFound, db)
    | some _ =>
      match findRolePermission db roleId permissionId with
      | some existing => (.ok existing, db)
      | none =>
        let rp : RolePermission :=
          { id := db.nextId, role_id := roleId, permission_id := permissionId }
        (.ok rp, { db with rolePermissions := db.rolePermissions ++ [rp],
                           nextId := db.nextId + 1 })

/-- RbacService.assignRoleToUser: confirm the role exists, then return the
existing assignment if any, else create it. -/
def assignRoleToUser (db : Db) (userTenantId roleId : Nat) (assignedBy : Option Nat) :
    Except AuthError UserRole × Db :=
  if userTenantId == 0 || roleId == 0 then (.error .idsRequired, db) else
  match findRoleById db roleId with
  | none => (.error .roleNotFound, db)
  | some _ =>
    match findUserRole db userTenantId roleId with
    | some existing => (.ok existing, db)
    | none =>
      let ur : UserRole :=
        { id := db.nextId, user_tenant_id := userTenantId, role_id := roleId,
          assigned_by := assignedBy }
      (.ok ur, { db with userRoles := db.userRoles ++ [ur], nextId := db.nextId + 1 })

/-- RbacService.removeRoleFromUser: delete the matching assignment rows. -/
def removeRoleFromUser (db : Db) (userTenantId roleId : Nat) : Db :=
  if userTenantId == 0 || roleId == 0 then db else
  { db with userRoles := db.userRoles.filter (fun ur =>
      !(ur.user_tenant_id == userTenantId && ur.role_id == roleId)) }

/-- RbacService.getUserPermissions: effective permission keys for a membership,
joining user_roles, role_permissions and permissions, filtering inactive
permissions, deduplicating the keys. -/
def getUserPermissions (db : Db) (userTenantId : Nat) : List Nat :=
  if userTenantId == 0 then [] else
  let userRoles := db.userRoles.filter (fun ur => ur.user_tenant_id == userTenantId)
  if userRoles.isEmpty then [] else
  let roleIds := (userRoles.map (fun ur => ur.role_id)).dedup
  if roleIds.isEmpty then [] else
  let rolePerms := db.rolePermissions.filter (fun rp => roleIds.contains rp.role_id)
  if rolePerms.isEmpty then [] else
  let permIds := (rolePerms.map (fun rp => rp.permission_id)).dedup
  if permIds.isEmpty then [] else
  let perms := db.permissions.filter (fun p => permIds.contains p.id && p.is_active)
  (perms.map (fun p => p.key)).dedup

/-- Modelled from the spec (for comparison with getUserPermissions): the section
4.6 description of permissionsOf, which joins RoleAssignment, RolePermission and
Permission, deduplicates keys, and filters both inactive roles and inactive
permissions. -/
def specPermissionsOf (db : Db) (userTenantId : Nat) : List Nat :=
  ((db.permissions.filter (fun p => p.is_active &&
      db.rolePermissions.any (fun rp => rp.permission_id == p.id &&
        db.roles.any (fun r => r.id == rp.role_id && r.is_active &&
          db.userRoles.any (fun ur =>
            ur.user_tenant_id == userTenantId && ur.role_id == rp.role_id))))).map
    (fun p => p.key)).dedup

/-! ## Concrete scenario: register-login-refresh chain used by several results -/

/-- A membership with password 7 for tenant 2, e-mail 10. -/
def cexUserTenant : UserTenant :=
  { id := 1, tenant_id := 2, user_id := 3, login_email := some 10,
    login_phone := none, password_hash := some (hashPassword 7), is_active := true }

/-- Store holding just that membership. -/
def cexDb0 : Db := { Db.empty with userTenants := [cexUserTenant], nextId := 5 }

/-- Correct credentials for that membership. -/
def cexLoginDto : LoginDto :=
  { loginEmail := some 10, loginPhone := none, password := 7, tenantId := 2,
    deviceFingerprint := none }

/-- Store after login at time 100 with raw refresh token 50:
session 5 and token row 6 exist. -/
def cexDb1 : Db := (login cexDb0 cexLoginDto 100 50).2

/-- Store after one successful rotation at time 101 (new raw token 51):
row 6 is revoked with replaced_by 7, row 7 is the live successor. -/
def cexDb2 : Db := (refresh cexDb1 50 5 101 51).2

/-- The record of the original token after it has been superseded. -/
def cexStoredTok : RefreshToken :=
  { id := 6, session_id := some 5, token_hash := hmac 50 REFRESH_HASH_SECRET,
    issued_at := 100, expires_at := 100 + REFRESH_TTL, revoked_at := some 101,
    replaced_by := some 7 }

/-- C1, counterexample: after login and one successful refresh, presenting the
original raw token again hits a record that is revoked and carries a
replaced_by pointer, yet the call fails with the plain revoked-token error and
leaves the store untouched: the session is not revoked and the successor token
row 7 keeps revoked_at none, so no reuse detection or cascading revocation
happens (the error taxonomy of the service has no reuse-detected failure at
all). -/
theorem refresh_reuse_not_detected_cex :
    findTokenByHash cexDb2 (hmac 50 REFRESH_HASH_SECRET) = some cexStoredTok ∧
    cexStoredTok.revoked_at.isSome = true ∧
    cexStoredTok.replaced_by.isSome = true ∧
    refresh cexDb2 50 5 102 52 = (.error .refreshTokenRevoked, cexDb2) ∧
    findSessionById cexDb2 5 =
      some { id := 5, user_tenant_id := 1, device_fingerprint := none,
             is_revoked := false, last_accessed := 100, expires_at := none } ∧
    cexDb2.refreshTokens.filter (fun t => t.id == 7) =
      [{ id := 7, session_id := some 5, token_hash := hmac 51 REFRESH_HASH_SECRET,
         issued_at := 101, expires_at := 101 + REFRESH_TTL, revoked_at := none,
         replaced_by := none }] := by
  decide

/-- C1, amended: presenting a raw token whose stored record is already revoked
and superseded (replaced_by set) makes refresh fail with the revoked-token
error and leaves the store unchanged; no session-wide revocation is performed
and the successor token is untouched. -/
theorem refresh_superseded_token_fails_revoked (db : Db) (raw sid now nraw : Nat)
    (r : RefreshToken) (t0 : Nat)
    (hraw : raw ≠ 0) (hsid : sid ≠ 0)
    (hfind : findTokenByHash db (hmac raw REFRESH_HASH_SECRET) = some r)
    (hrev : r.revoked_at = some t0) (hrepl : r.replaced_by.isSome = true) :
    refresh db raw sid now nraw = (.error .refreshTokenRevoked, db) := by
  simp [refresh, hraw, hsid, hfind, hrev]

/-- Witness instantiating refresh_superseded_token_fails_revoked on the
concrete rotation chain. -/
theorem refresh_superseded_token_fails_revoked_witness :
    (50 : Nat) ≠ 0 ∧ (5 : Nat) ≠ 0 ∧
    findTokenByHash cexDb2 (hmac 50 REFRESH_HASH_SECRET) = some cexStoredTok ∧
    cexStoredTok.revoked_at = some 101 ∧
    cexStoredTok.replaced_by.isSome = true ∧
    refresh cexDb2 50 5 102 52 = (.error .refreshTokenRevoked, cexDb2) :=
  ⟨by decide, by decide, by decide, by decide, by decide,
   refresh_superseded_token_fails_revoked cexDb2 50 5 102 52 cexStoredTok 101
     (by decide) (by decide) (by decide) (by decide) (by decide)⟩

/-- A token record that is both expired and revoked, for the check-order result. -/
def cexTokER : RefreshToken :=
  { id := 6, session_id := some 5, token_hash := hmac 50 REFRESH_HASH_SECRET,
    issued_at := 0, expires_at := 10, revoked_at := some 1, replaced_by := none }

/-- Store holding only that doubly dead token. -/
def cexDbER : Db := { Db.empty with refreshTokens := [cexTokER], nextId := 7 }

/-- C2, counterexample: on a token that is both past expiry (expires_at 10,
now 100) and revoked, refresh fails with the revoked-token error, not the
expired-token error, so the revoked check runs before the expiry check. -/
theorem refresh_revoked_before_expired_cex :
    cexTokER.expires_at < 100 ∧
    cexTokER.revoked_at.isSome = true ∧
    refresh cexDbER 50 5 100 51 = (.error .refreshTokenRevoked, cexDbER) ∧
    (refresh cexDbER 50 5 100 51).1 ≠ .error .refreshTokenExpired := by
  decide

/-- Role and permission resolution reads only the four RBAC tables, so it is
unchanged by session or token writes. -/
theorem resolve_eq_of_rbac_eq (db db2 : Db)
    (h1 : db2.userRoles = db.userRoles) (h2 : db2.roles = db.roles)
    (h3 : db2.rolePermissions = db.rolePermissions)
    (h4 : db2.permissions = db.permissions) (x : Nat) :
    resolveRolesAndPermissions db2 x = resolveRolesAndPermissions db x := by
  simp only [resolveRolesAndPermissions, h1, h2, h3, h4]

/-- The refresh-token row that generateRefreshTokenEntry persists, named for
reuse in statements about rotation. -/
def freshTokenRow (db : Db) (sessionId : Option Nat) (raw now : Nat) : RefreshToken :=
  { id := db.nextId, session_id := sessionId,
    token_hash := hmac raw REFRESH_HASH_SECRET, issued_at := now,
    expires_at := now + REFRESH_TTL, revoked_at := none, replaced_by := none }

/-- C2 (amended): the refresh checks run in source order with the revoked check
before the expiry check: unknown hash fails as an invalid token; a revoked
record fails as revoked (deciding for a token that is both expired and
revoked); an unrevoked record past expiry fails as expired; then a session-id
mismatch fails as a mismatch; and when every check passes and the session and
its membership exist, the old record is marked revoked with replaced_by set to
the id of the freshly created token row, which is bound to the same session,
and the new raw value is returned. -/
theorem refresh_check_order (db : Db) (raw sid now nraw : Nat)
    (hraw : raw ≠ 0) (hsid : sid ≠ 0) :
    (findTokenByHash db (hmac raw REFRESH_HASH_SECRET) = none →
      refresh db raw sid now nraw = (.error .invalidRefreshToken, db)) ∧
    (∀ r t0, findTokenByHash db (hmac raw REFRESH_HASH_SECRET) = some r →
      r.revoked_at = some t0 →
      refresh db raw sid now nraw = (.error .refreshTokenRevoked, db)) ∧
    (∀ r, findTokenByHash db (hmac raw REFRESH_HASH_SECRET) = some r →
      r.revoked_at = none → r.expires_at < now →
      refresh db raw sid now nraw = (.error .refreshTokenExpired, db)) ∧
    (∀ r, findTokenByHash db (hmac raw REFRESH_HASH_SECRET) = some r →
      r.revoked_at = none → ¬ r.expires_at < now → r.session_id ≠ some sid →
      refresh db raw sid now nraw = (.error .sessionMismatch, db)) ∧
    (∀ r s ut, findTokenByHash db (hmac raw REFRESH_HASH_SECRET) = some r →
      r.revoked_at = none → ¬ r.expires_at < now → r.session_id = some sid →
      findSessionById db sid = some s → s.is_revoked = false →
      findUserTenantById db s.user_tenant_id = some ut → r.id ≠ db.nextId →
      refresh db raw sid now nraw =
        (.ok { accessToken :=
                 { sub := ut.id, tenant := ut.tenant_id,
                   roles := (resolveRolesAndPermissions db ut.id).1,
                   permissions := (resolveRolesAndPermissions db ut.id).2 },
               refreshToken := nraw,
               refreshTokenExpiresAt := now + REFRESH_TTL },
         { db with
             refreshTokens :=
               db.refreshTokens.map (fun t =>
                 if t.id == r.id then
                   { t with revoked_at := some now, replaced_by := some db.nextId }
                 else t)
               ++ [freshTokenRow db (some sid) nraw now],
             nextId := db.nextId + 1 })) := by
  refine ⟨?_, ?_, ?_, ?_, ?_⟩
  · intro hfind
    simp [refresh, hraw, hsid, hfind]
  · intro r t0 hfind hrev
    simp [refresh, hraw, hsid, hfind, hrev]
  · intro r hfind hrev hexp
    simp [refresh, hraw, hsid, hfind, hrev, hexp]
  · intro r hfind hrev hexp hmis
    simp [refresh, hraw, hsid, hfind, hrev, hexp, hmis]
  · intro r s ut hfind hrev hexp hbind hfs hsrev hut hne
    have hne2 : ¬ (db.nextId = r.id) := fun h => hne h.symm
    have hres : resolveRolesAndPermissions
        { db with
            refreshTokens :=
              (db.refreshTokens ++ [freshTokenRow db (some sid) nraw now]).map
                (fun t =>
                  if t.id == r.id then
                    { t with revoked_at := some now, replaced_by := some db.nextId }
                  else t),
            nextId := db.nextId + 1 } ut.id
        = resolveRolesAndPermissions db ut.id :=
      resolve_eq_of_rbac_eq _ _ rfl rfl rfl rfl ut.id
    simp [refresh, hraw, hsid, hfind, hrev, hexp, hbind, hfs, hsrev, hne2,
          generateRefreshTokenEntry, findUserTenantById, freshTokenRow] at hut hres ⊢
    simp [hut, hres]

/-- Witness instantiating refresh_check_order on the expired-and-revoked token:
the revoked bullet applies and decides the race between the two checks. -/
theorem refresh_check_order_witness :
    (50 : Nat) ≠ 0 ∧ (5 : Nat) ≠ 0 ∧
    findTokenByHash cexDbER (hmac 50 REFRESH_HASH_SECRET) = some cexTokER ∧
    cexTokER.revoked_at = some 1 ∧
    refresh cexDbER 50 5 100 51 = (.error .refreshTokenRevoked, cexDbER) :=
  ⟨by decide, by decide, by decide, by decide,
   (refresh_check_order cexDbER 50 5 100 51 (by decide) (by decide)).2.1 cexTokER 1
     (by decide) (by decide)⟩

/-! ## Helper lemmas about the latest-live OTP selection -/

/-- Folding pickLater from a some accumulator yields a row at least as recent. -/
theorem foldl_pickLater_some (l : List OtpCode) :
    ∀ a : OtpCode, ∃ o, l.foldl pickLater (some a) = some o ∧
      a.created_at ≤ o.created_at := by
  induction l with
  | nil => intro a; exact ⟨a, rfl, le_refl _⟩
  | cons x xs ih =>
    intro a
    simp only [List.foldl_cons, pickLater]
    by_cases h : a.created_at < x.created_at
    · rw [if_pos h]
      obtain ⟨o, ho, hle⟩ := ih x
      exact ⟨o, ho, le_trans (le_of_lt h) hle⟩
    · rw [if_neg h]
      exact ih a

/-- The fold result is the accumulator or one of the folded rows. -/
theorem foldl_pickLater_mem (l : List OtpCode) :
    ∀ (acc : Option OtpCode) (o : OtpCode), l.foldl pickLater acc = some o →
      acc = some o ∨ o ∈ l := by
  induction l with
  | nil => intro acc o h; exact Or.inl h
  | cons x xs ih =>
    intro acc o h
    simp only [List.foldl_cons] at h
    rcases ih (pickLater acc x) o h with h1 | h2
    · cases acc with
      | none =>
        right
        simp only [pickLater] at h1
        obtain rfl : x = o := by injection h1
        exact List.mem_cons_self _ _
      | some a =>
        simp only [pickLater] at h1
        by_cases hc : a.created_at < x.created_at
        · rw [if_pos hc] at h1
          right
          obtain rfl : x = o := by injection h1
          exact List.mem_cons_self _ _
        · rw [if_neg hc] at h1
          left
          exact h1
    · right
      exact List.mem_cons_of_mem _ h2

/-- Every folded row is no more recent than the fold result. -/
theorem foldl_pickLater_ge (l : List OtpCode) :
    ∀ (acc : Option OtpCode) (o : OtpCode), l.foldl pickLater acc = some o →
      ∀ x ∈ l, x.created_at ≤ o.created_at := by
  induction l with
  | nil => intro acc o _ x hx; cases hx
  | cons y ys ih =>
    intro acc o h x hx
    simp only [List.foldl_cons] at h
    rcases List.mem_cons.mp hx with rfl | hx2
    · have hstep : ∃ m, pickLater acc x = some m ∧ x.created_at ≤ m.created_at := by
        cases acc with
        | none => exact ⟨x, rfl, le_refl _⟩
        | some a =>
          by_cases hc : a.created_at < x.created_at
          · exact ⟨x, by simp [pickLater, hc], le_refl _⟩
          · exact ⟨a, by simp [pickLater, hc], le_of_not_lt hc⟩
      obtain ⟨m, hm, hxm⟩ := hstep
      rw [hm] at h
      obtain ⟨o2, ho2, hmo⟩ := foldl_pickLater_some ys m
      rw [ho2] at h
      cases h
      exact le_trans hxm hmo
    · exact ih _ o h x hx2

/-- C3: verifyOtp fetches only the most recent unconsumed, unexpired challenge
for the triple and fails with the not-found error when there is none; the
attempt-lock check precedes the hash comparison, so a locked challenge rejects
every code, the correct one included; a mismatch increments the attempt counter
of that challenge and fails; a match sets consumed_at; and a consumed challenge
is never selected by the lookup, so it can never verify again. -/
theorem verifyOtp_spec (db : Db) (t s p code now : Nat)
    (ht : t ≠ 0) (hs : s ≠ 0) (hp : p ≠ 0) (hc : code ≠ 0) :
    (latestLiveOtp db t s p now = none →
       verifyOtp db t s p code now = (.error .otpNotFound, db)) ∧
    (∀ o, latestLiveOtp db t s p now = some o →
       o ∈ db.otps ∧ otpMatches o t s p now = true ∧ o.consumed_at = none ∧
       ∀ o2 ∈ db.otps, otpMatches o2 t s p now = true →
         o2.created_at ≤ o.created_at) ∧
    (∀ o, latestLiveOtp db t s p now = some o → o.max_attempts ≤ o.attempts →
       verifyOtp db t s p code now = (.error .otpLocked, db)) ∧
    (∀ o, latestLiveOtp db t s p now = some o → o.attempts < o.max_attempts →
       hmacOtp code OTP_HASH_SECRET ≠ o.code_hash →
       verifyOtp db t s p code now =
         (.error .otpInvalidCode,
          { db with otps := db.otps.map (fun x =>
              if x.id == o.id then { x with attempts := x.attempts + 1 }
              else x) })) ∧
    (∀ o, latestLiveOtp db t s p now = some o → o.attempts < o.max_attempts →
       hmacOtp code OTP_HASH_SECRET = o.code_hash →
       verifyOtp db t s p code now =
         (.ok (),
          { db with otps := db.otps.map (fun x =>
              if x.id == o.id then { x with consumed_at := some now }
              else x) })) := by
  refine ⟨?_, ?_, ?_, ?_, ?_⟩
  · intro hnone
    simp [verifyOtp, ht, hs, hp, hc, hnone]
  · intro o hsome
    have hmem : o ∈ db.otps.filter (fun x => otpMatches x t s p now) := by
      rcases foldl_pickLater_mem _ none o hsome with h1 | h2
      · cases h1
      · exact h2
    have hmem2 := List.mem_filter.mp hmem
    have hmatch : otpMatches o t s p now = true := hmem2.2
    have hcons : o.consumed_at = none := by
      have := hmatch
      simp only [otpMatches, Bool.and_eq_true, Option.isNone_iff_eq_none] at this
      exact this.1.2
    refine ⟨hmem2.1, hmatch, hcons, ?_⟩
    intro o2 ho2 hm2
    exact foldl_pickLater_ge _ none o hsome o2
      (List.mem_filter.mpr ⟨ho2, hm2⟩)
  · intro o hsome hlock
    simp [verifyOtp, ht, hs, hp, hc, hsome, hlock]
  · intro o hsome hnl hmis
    have hnl2 : ¬ o.max_attempts ≤ o.attempts := not_le.mpr hnl
    simp [verifyOtp, ht, hs, hp, hc, hsome, hnl2, hmis]
  · intro o hsome hnl hmatch
    have hnl2 : ¬ o.max_attempts ≤ o.attempts := not_le.mpr hnl
    simp [verifyOtp, ht, hs, hp, hc, hsome, hnl2, hmatch]

/-- Witness instantiating verifyOtp_spec: on a store with no live challenge the
call fails with the not-found error. -/
theorem verifyOtp_spec_witness :
    (1 : Nat) ≠ 0 ∧ (2 : Nat) ≠ 0 ∧ (3 : Nat) ≠ 0 ∧ (44 : Nat) ≠ 0 ∧
    latestLiveOtp Db.empty 1 2 3 0 = none ∧
    verifyOtp Db.empty 1 2 3 44 0 = (.error .otpNotFound, Db.empty) :=
  ⟨by decide, by decide, by decide, by decide, by decide,
   (verifyOtp_spec Db.empty 1 2 3 44 0 (by decide) (by decide) (by decide)
     (by decide)).1 (by decide)⟩

/-- The disabled variant of the scenario membership. -/
def cexUserTenantDisabled : UserTenant := { cexUserTenant with is_active := false }

/-- Store holding only the disabled membership. -/
def cexDbDisabled : Db :=
  { Db.empty with userTenants := [cexUserTenantDisabled], nextId := 5 }

/-- C4, counterexample: logging in against a disabled membership with a wrong
password fails with the invalid-credentials error, not the disabled-account
error, so the password is verified before the active flag is checked; under
the claimed ordering (disabled check first) the password check would be
unreachable for this input. -/
theorem login_disabled_after_password_cex :
    cexUserTenantDisabled.is_active = false ∧
    verifyPassword (hashPassword 7) 8 = false ∧
    login cexDbDisabled { cexLoginDto with password := 8 } 100 50 =
      (.error .invalidCredentials, cexDbDisabled) ∧
    login cexDbDisabled cexLoginDto 100 50 =
      (.error .userDisabled, cexDbDisabled) := by
  decide

/-- The session row login persists, named for reuse in statements. -/
def freshSessionRow (db : Db) (utid : Nat) (fp : Option Nat) (now : Nat) : Session :=
  { id := db.nextId, user_tenant_id := utid, device_fingerprint := fp,
    is_revoked := false, last_accessed := now, expires_at := none }

/-- C4 (amended): login verifies that the membership exists, then the password
(against the stored hash), then the active flag, and only then creates the
session, resolves roles and permissions, and issues the tokens; the access
token claims carry subject equal to the membership id (not the global user id),
the tenant id, and the resolved role names and permission keys, and the
refresh-chain root is bound to the new session.  A disabled membership gets
the disabled error with no session row and no token row created, but only
after its password has been verified. -/
theorem login_order_spec (db : Db) (dto : LoginDto) (now raw : Nat)
    (ut : UserTenant) (ph : Nat)
    (htid : dto.tenantId ≠ 0)
    (hfind : findUserTenantByLogin db dto = some ut)
    (hph : ut.password_hash = some ph) :
    (verifyPassword ph dto.password = false →
       login db dto now raw = (.error .invalidCredentials, db)) ∧
    (verifyPassword ph dto.password = true → ut.is_active = false →
       login db dto now raw = (.error .userDisabled, db)) ∧
    (verifyPassword ph dto.password = true → ut.is_active = true →
       login db dto now raw =
         (.ok { accessToken :=
                  { sub := ut.id, tenant := ut.tenant_id,
                    roles := (resolveRolesAndPermissions db ut.id).1,
                    permissions := (resolveRolesAndPermissions db ut.id).2 },
                refreshToken := raw,
                refreshTokenExpiresAt := now + REFRESH_TTL,
                sessionId := db.nextId, userTenantId := ut.id,
                roles := (resolveRolesAndPermissions db ut.id).1,
                permissions := (resolveRolesAndPermissions db ut.id).2 },
          { db with
              sessions := db.sessions ++
                [freshSessionRow db ut.id dto.deviceFingerprint now],
              refreshTokens := db.refreshTokens ++
                [{ freshTokenRow db (some db.nextId) raw now with
                     id := db.nextId + 1 }],
              nextId := db.nextId + 2 })) := by
  refine ⟨?_, ?_, ?_⟩
  · intro hbad
    simp [login, htid, hfind, hph, hbad]
  · intro hok hdis
    simp [login, htid, hfind, hph, hok, hdis]
  · intro hok hact
    have hres : resolveRolesAndPermissions
        { db with
            sessions := db.sessions ++
              [freshSessionRow db ut.id dto.deviceFingerprint now],
            nextId := db.nextId + 1 } ut.id
        = resolveRolesAndPermissions db ut.id :=
      resolve_eq_of_rbac_eq _ _ rfl rfl rfl rfl ut.id
    simp [login, htid, hfind, hph, hok, hact, generateRefreshTokenEntry,
          freshSessionRow, freshTokenRow] at hres ⊢
    simp [hres]

/-- Witness instantiating login_order_spec: the successful login of the
concrete scenario produces session 5 and token row 6 bound to it. -/
theorem login_order_spec_witness :
    cexLoginDto.tenantId ≠ 0 ∧
    findUserTenantByLogin cexDb0 cexLoginDto = some cexUserTenant ∧
    cexUserTenant.password_hash = some (hashPassword 7) ∧
    verifyPassword (hashPassword 7) cexLoginDto.password = true ∧
    cexUserTenant.is_active = true ∧
    login cexDb0 cexLoginDto 100 50 =
      (.ok { accessToken :=
               { sub := cexUserTenant.id, tenant := cexUserTenant.tenant_id,
                 roles := (resolveRolesAndPermissions cexDb0 cexUserTenant.id).1,
                 permissions := (resolveRolesAndPermissions cexDb0 cexUserTenant.id).2 },
             refreshToken := 50,
             refreshTokenExpiresAt := 100 + REFRESH_TTL,
             sessionId := cexDb0.nextId, userTenantId := cexUserTenant.id,
             roles := (resolveRolesAndPermissions cexDb0 cexUserTenant.id).1,
             permissions := (resolveRolesAndPermissions cexDb0 cexUserTenant.id).2 },
       { cexDb0 with
           sessions := cexDb0.sessions ++
             [freshSessionRow cexDb0 cexUserTenant.id cexLoginDto.deviceFingerprint 100],
           refreshTokens := cexDb0.refreshTokens ++
             [{ freshTokenRow cexDb0 (some cexDb0.nextId) 50 100 with
                  id := cexDb0.nextId + 1 }],
           nextId := cexDb0.nextId + 2 }) :=
  ⟨by decide, by decide, by decide, by decide, by decide,
   (login_order_spec cexDb0 cexLoginDto 100 50 cexUserTenant (hashPassword 7)
     (by decide) (by decide) (by decide)).2.2 (by decide) (by decide)⟩

/-- The passwordless variant of the scenario membership. -/
def cexUserTenantNoHash : UserTenant := { cexUserTenant with password_hash := none }

/-- Store holding only the passwordless membership. -/
def cexDbNoHash : Db :=
  { Db.empty with userTenants := [cexUserTenantNoHash], nextId := 5 }

/-- C5, counterexample: a membership with no stored password hash is rejected,
but with the distinct no-password-configured error rather than the
invalid-credentials error, so the caller can tell a passwordless account apart
from a wrong password or unknown subject. -/
theorem login_passwordless_distinct_error_cex :
    cexUserTenantNoHash.password_hash = none ∧
    login cexDbNoHash cexLoginDto 100 50 =
      (.error .noPasswordConfigured, cexDbNoHash) ∧
    (login cexDbNoHash cexLoginDto 100 50).1 ≠ .error .invalidCredentials := by
  decide

/-- C5 (amended): an unknown (tenant, login) pair and a wrong password both
collapse to the invalid-credentials error, and a membership without a stored
hash is always rejected, never treated as a match; but the missing-hash case
surfaces as the distinct no-password-configured error rather than as
invalid credentials. -/
theorem login_credential_errors_spec (db : Db) (dto : LoginDto) (now raw : Nat)
    (htid : dto.tenantId ≠ 0) :
    (findUserTenantByLogin db dto = none →
       login db dto now raw = (.error .invalidCredentials, db)) ∧
    (∀ ut ph, findUserTenantByLogin db dto = some ut →
       ut.password_hash = some ph → verifyPassword ph dto.password = false →
       login db dto now raw = (.error .invalidCredentials, db)) ∧
    (∀ ut, findUserTenantByLogin db dto = some ut → ut.password_hash = none →
       login db dto now raw = (.error .noPasswordConfigured, db)) := by
  refine ⟨?_, ?_, ?_⟩
  · intro hnone
    simp [login, htid, hnone]
  · intro ut ph hfind hph hbad
    simp [login, htid, hfind, hph, hbad]
  · intro ut hfind hph
    simp [login, htid, hfind, hph]

/-- Witness instantiating login_credential_errors_spec on a store with no
membership for the presented login. -/
theorem login_credential_errors_spec_witness :
    cexLoginDto.tenantId ≠ 0 ∧
    findUserTenantByLogin Db.empty cexLoginDto = none ∧
    login Db.empty cexLoginDto 100 50 = (.error .invalidCredentials, Db.empty) :=
  ⟨by decide, by decide,
   (login_credential_errors_spec Db.empty cexLoginDto 100 50 (by decide)).1
     (by decide)⟩

/-- Membership in getUserPermissions: exactly the keys of active permissions
reachable from the membership through some role assignment and some
role-permission mapping, with no condition on the role row itself. -/
theorem mem_getUserPermissions (db : Db) (ut k : Nat) (hut : ut ≠ 0) :
    k ∈ getUserPermissions db ut ↔
      ∃ ur ∈ db.userRoles, ur.user_tenant_id = ut ∧
      ∃ rp ∈ db.rolePermissions, rp.role_id = ur.role_id ∧
      ∃ p ∈ db.permissions, p.id = rp.permission_id ∧ p.is_active = true ∧
        p.key = k := by
  simp [getUserPermissions, hut]
  constructor
  · rintro ⟨-, -, p, ⟨hp, ⟨rp, ⟨hrp, ur, ⟨hur, hutid⟩, hrid⟩, hpid⟩, hact⟩, hkey⟩
    exact ⟨ur, hur, hutid, rp, hrp, hrid.symm, p, hp, hpid.symm, hact, hkey⟩
  · rintro ⟨ur, hur, hutid, rp, hrp, hrid, p, hp, hpid, hact, hkey⟩
    exact ⟨⟨ur, hur, hutid⟩, ⟨rp, hrp, ur, hur, hutid, hrid.symm⟩,
           p, ⟨hp, ⟨rp, ⟨hrp, ur, ⟨hur, hutid⟩, hrid.symm⟩, hpid.symm⟩, hact⟩, hkey⟩

/-- getUserPermissions never returns a duplicated key. -/
theorem getUserPermissions_nodup (db : Db) (ut : Nat) :
    (getUserPermissions db ut).Nodup := by
  simp only [getUserPermissions]
  split
  · exact List.nodup_nil
  · split
    · exact List.nodup_nil
    · split
      · exact List.nodup_nil
      · split
        · exact List.nodup_nil
        · split
          · exact List.nodup_nil
          · exact (List.nodup_dedup _)

/-- A deactivated role whose permissions still flow into the effective set. -/
def cexRoleInactive : Role := { id := 1, name := 11, description := none, is_active := false }

/-- RBAC store: membership 7 holds only the inactive role 1, which maps to the
active permission with key 9. -/
def cexDbRbac : Db :=
  { Db.empty with
      roles := [cexRoleInactive],
      permissions := [{ id := 2, key := 9, description := none, is_active := true }],
      rolePermissions := [{ id := 3, role_id := 1, permission_id := 2 }],
      userRoles := [{ id := 4, user_tenant_id := 7, role_id := 1, assigned_by := none }],
      nextId := 10 }

/-- C6, counterexample: with membership 7 assigned only the inactive role, the
resolved permission set still contains key 9, while the spec-described
resolution (which filters inactive roles as well as inactive permissions)
returns the empty set: inactive roles are not excluded by the code. -/
theorem getUserPermissions_inactive_role_cex :
    (∀ r ∈ cexDbRbac.roles, r.is_active = false) ∧
    getUserPermissions cexDbRbac 7 = [9] ∧
    specPermissionsOf cexDbRbac 7 = [] := by
  decide

/-- C6 (amended): the effective permission set is exactly the deduplicated set
of keys of active permissions reachable through RoleAssignment and
RolePermission from the membership, with inactive permissions excluded but
inactive roles not excluded; it is a pure function of the current assignment
rows, so after deleting the assignments of a role that was the only path to a
key, resolving again no longer contains that key. -/
theorem getUserPermissions_spec (db : Db) (ut k rid : Nat)
    (hut : ut ≠ 0) (hrid : rid ≠ 0) :
    (k ∈ getUserPermissions db ut ↔
      ∃ ur ∈ db.userRoles, ur.user_tenant_id = ut ∧
      ∃ rp ∈ db.rolePermissions, rp.role_id = ur.role_id ∧
      ∃ p ∈ db.permissions, p.id = rp.permission_id ∧ p.is_active = true ∧
        p.key = k) ∧
    (getUserPermissions db ut).Nodup ∧
    ((∀ ur ∈ db.userRoles, ur.user_tenant_id = ut →
        (∃ rp ∈ db.rolePermissions, rp.role_id = ur.role_id ∧
         ∃ p ∈ db.permissions, p.id = rp.permission_id ∧ p.is_active = true ∧
           p.key = k) →
        ur.role_id = rid) →
      k ∉ getUserPermissions (removeRoleFromUser db ut rid) ut) := by
  refine ⟨mem_getUserPermissions db ut k hut, getUserPermissions_nodup db ut, ?_⟩
  intro hexcl hkmem
  rw [mem_getUserPermissions _ ut k hut] at hkmem
  obtain ⟨ur, hur, hutid, hreach⟩ := hkmem
  have hcond : ¬ ((ut == 0 || rid == 0) = true) := by simp [hut, hrid]
  simp only [removeRoleFromUser] at hur hreach
  rw [if_neg hcond] at hur hreach
  dsimp only at hur hreach
  obtain ⟨hur2, hne⟩ := List.mem_filter.mp hur
  have hli := hexcl ur hur2 hutid hreach
  simp [hutid, hli] at hne

/-- Witness instantiating getUserPermissions_spec: on the concrete RBAC store,
key 9 is in the resolved set because it is reachable through role 1. -/
theorem getUserPermissions_spec_witness :
    (7 : Nat) ≠ 0 ∧ (1 : Nat) ≠ 0 ∧ 9 ∈ getUserPermissions cexDbRbac 7 :=
  ⟨by decide, by decide,
   (getUserPermissions_spec cexDbRbac 7 9 1 (by decide) (by decide)).1.mpr
     ⟨{ id := 4, user_tenant_id := 7, role_id := 1, assigned_by := none },
      by decide, by decide,
      { id := 3, role_id := 1, permission_id := 2 }, by decide, by decide,
      { id := 2, key := 9, description := none, is_active := true },
      by decide, by decide, by decide, by decide⟩⟩

/-- C7: the administrative RBAC mutations are idempotent on their natural keys:
when a role of the given name, a permission of the given key, a mapping for the
given (role id, permission id) pair, or an assignment for the given
(membership id, role id) pair already exists (and for assignments their
referenced rows exist, which the code checks first), the call returns the
existing row unchanged and the store is left exactly as it was, so a second
identical call does nothing. -/
theorem rbac_mutations_idempotent :
    (∀ (db : Db) (n : Nat) (d : Option Nat) (r : Role), n ≠ 0 →
       findRoleByName db n = some r → createRole db n d = (.ok r, db)) ∧
    (∀ (db : Db) (key : Nat) (d : Option Nat) (p : Permission), key ≠ 0 →
       findPermissionByKey db key = some p →
       createPermission db key d = (.ok p, db)) ∧
    (∀ (db : Db) (rid pid : Nat) (ro : Role) (pe : Permission)
       (m : RolePermission), rid ≠ 0 → pid ≠ 0 →
       findRoleById db rid = some ro → findPermissionById db pid = some pe →
       findRolePermission db rid pid = some m →
       assignPermissionToRole db rid pid = (.ok m, db)) ∧
    (∀ (db : Db) (utid rid : Nat) (ab : Option Nat) (ro : Role) (m : UserRole),
       utid ≠ 0 → rid ≠ 0 →
       findRoleById db rid = some ro → findUserRole db utid rid = some m →
       assignRoleToUser db utid rid ab = (.ok m, db)) := by
  refine ⟨?_, ?_, ?_, ?_⟩
  · intro db n d r hn hfind
    simp [createRole, hn, hfind]
  · intro db key d p hk hfind
    simp [createPermission, hk, hfind]
  · intro db rid pid ro pe m hr hp hro hpe hm
    simp [assignPermissionToRole, hr, hp, hro, hpe, hm]
  · intro db utid rid ab ro m hu hr hro hm
    simp [assignRoleToUser, hu, hr, hro, hm]

/-- A store with one role, one permission, their mapping, and one assignment,
for exercising the idempotence result. -/
def cexDbRbacFull : Db :=
  { Db.empty with
      roles := [{ id := 1, name := 11, description := none, is_active := true }],
      permissions := [{ id := 2, key := 9, description := none, is_active := true }],
      rolePermissions := [{ id := 3, role_id := 1, permission_id := 2 }],
      userRoles := [{ id := 4, user_tenant_id := 7, role_id := 1, assigned_by := none }],
      nextId := 10 }

/-- Witness instantiating rbac_mutations_idempotent on the concrete store:
each mutation re-run on its existing natural key returns the stored row and
leaves the store untouched. -/
theorem rbac_mutations_idempotent_witness :
    createRole cexDbRbacFull 11 none =
      (.ok { id := 1, name := 11, description := none, is_active := true },
       cexDbRbacFull) ∧
    createPermission cexDbRbacFull 9 none =
      (.ok { id := 2, key := 9, description := none, is_active := true },
       cexDbRbacFull) ∧
    assignPermissionToRole cexDbRbacFull 1 2 =
      (.ok { id := 3, role_id := 1, permission_id := 2 }, cexDbRbacFull) ∧
    assignRoleToUser cexDbRbacFull 7 1 none =
      (.ok { id := 4, user_tenant_id := 7, role_id := 1, assigned_by := none },
       cexDbRbacFull) :=
  ⟨rbac_mutations_idempotent.1 cexDbRbacFull 11 none _ (by decide) (by decide),
   rbac_mutations_idempotent.2.1 cexDbRbacFull 9 none _ (by decide) (by decide),
   rbac_mutations_idempotent.2.2.1 cexDbRbacFull 1 2
     { id := 1, name := 11, description := none, is_active := true }
     { id := 2, key := 9, description := none, is_active := true } _
     (by decide) (by decide) (by decide) (by decide) (by decide),
   rbac_mutations_idempotent.2.2.2 cexDbRbacFull 7 1 none
     { id := 1, name := 11, description := none, is_active := true } _
     (by decide) (by decide) (by decide) (by decide)⟩

/-- C8: logout marks the session revoked and sets revoked_at on every refresh
token of that session, so a subsequent refresh presenting any token of the
session fails with the revoked-token error (one of the two failures the spec
allows) and returns no new token pair, leaving the store unchanged. -/
theorem logout_revokes_chain (db : Db) (sid now : Nat) (s : Session)
    (hsid : sid ≠ 0) (hfs : findSessionById db sid = some s) :
    (logout db sid now).1 = .ok () ∧
    (∀ s2 ∈ (logout db sid now).2.sessions, s2.id = sid →
       s2.is_revoked = true) ∧
    (∀ tk ∈ (logout db sid now).2.refreshTokens, tk.session_id = some sid →
       tk.revoked_at = some now) ∧
    (∀ raw now2 nraw r, raw ≠ 0 →
       findTokenByHash (logout db sid now).2 (hmac raw REFRESH_HASH_SECRET) =
         some r →
       r.session_id = some sid →
       refresh (logout db sid now).2 raw sid now2 nraw =
         (.error .refreshTokenRevoked, (logout db sid now).2)) := by
  have htok : ∀ tk ∈ (logout db sid now).2.refreshTokens,
      tk.session_id = some sid → tk.revoked_at = some now := by
    intro tk htk hsess
    simp only [logout, hsid, hfs] at htk
    simp only [beq_iff_eq, if_neg, List.mem_map] at htk
    rw [if_neg (by simp [hsid])] at htk
    obtain ⟨x, hx, rfl⟩ := by simpa using htk
    by_cases hxs : x.session_id = some sid
    · simp [hxs]
    · simp [hxs] at hsess ⊢
  refine ⟨by simp [logout, hsid, hfs], ?_, htok, ?_⟩
  · intro s2 hs2 hid
    simp only [logout, hsid, hfs] at hs2
    rw [if_neg (by simp [hsid])] at hs2
    obtain ⟨x, hx, rfl⟩ := by simpa using hs2
    by_cases hxid : x.id = sid
    · simp [hxid]
    · simp [hxid] at hid ⊢
  · intro raw now2 nraw r hraw hfind hrsid
    have hmem : r ∈ (logout db sid now).2.refreshTokens :=
      List.mem_of_find?_eq_some hfind
    have hrev : r.revoked_at = some now := htok r hmem hrsid
    simp [refresh, hraw, hsid, hfind, hrev]

/-- Witness instantiating logout_revokes_chain: logging out session 5 of the
concrete chain revokes it, and refreshing with the live token afterwards fails
with the revoked-token error. -/
theorem logout_revokes_chain_witness :
    (5 : Nat) ≠ 0 ∧
    findSessionById cexDb2 5 =
      some { id := 5, user_tenant_id := 1, device_fingerprint := none,
             is_revoked := false, last_accessed := 100, expires_at := none } ∧
    (51 : Nat) ≠ 0 ∧
    findTokenByHash (logout cexDb2 5 200).2 (hmac 51 REFRESH_HASH_SECRET) =
      some { id := 7, session_id := some 5,
             token_hash := hmac 51 REFRESH_HASH_SECRET, issued_at := 101,
             expires_at := 101 + REFRESH_TTL, revoked_at := some 200,
             replaced_by := none } ∧
    refresh (logout cexDb2 5 200).2 51 5 201 60 =
      (.error .refreshTokenRevoked, (logout cexDb2 5 200).2) :=
  ⟨by decide, by decide, by decide, by decide,
   (logout_revokes_chain cexDb2 5 200
       { id := 5, user_tenant_id := 1, device_fingerprint := none,
         is_revoked := false, last_accessed := 100, expires_at := none }
       (by decide) (by decide)).2.2.2 51 201 60
     { id := 7, session_id := some 5,
       token_hash := hmac 51 REFRESH_HASH_SECRET, issued_at := 101,
       expires_at := 101 + REFRESH_TTL, revoked_at := some 200,
       replaced_by := none }
     (by decide) (by decide) (by decide)⟩

/-- C9: when the presented token and session pass every check but the
membership row behind the session is missing, refresh throws the
user-session-not-found error only after the store has been mutated: the new
token row is already persisted and the presented token is already marked
revoked with replaced_by set, yet the new raw value is not returned, so the
chain is consumed on this error path. -/
theorem refresh_missing_membership_mutates (db : Db) (raw sid now nraw : Nat)
    (r : RefreshToken) (s : Session)
    (hraw : raw ≠ 0) (hsid : sid ≠ 0)
    (hfind : findTokenByHash db (hmac raw REFRESH_HASH_SECRET) = some r)
    (hrev : r.revoked_at = none) (hexp : ¬ r.expires_at < now)
    (hbind : r.session_id = some sid)
    (hfs : findSessionById db sid = some s) (hsrev : s.is_revoked = false)
    (hut : findUserTenantById db s.user_tenant_id = none)
    (hne : r.id ≠ db.nextId) :
    refresh db raw sid now nraw =
      (.error .userSessionNotFound,
       { db with
           refreshTokens :=
             db.refreshTokens.map (fun t =>
               if t.id == r.id then
                 { t with revoked_at := some now, replaced_by := some db.nextId }
               else t)
             ++ [freshTokenRow db (some sid) nraw now],
           nextId := db.nextId + 1 }) := by
  have hne2 : ¬ (db.nextId = r.id) := fun h => hne h.symm
  rw [findUserTenantById] at hut
  simp [refresh, hraw, hsid, hfind, hrev, hexp, hbind, hfs, hsrev, hne2, hut,
        generateRefreshTokenEntry, findUserTenantById, freshTokenRow]

/-- A store whose token and session are valid but whose membership row is
missing: session 5 points at membership 1, which does not exist. -/
def cexDbOrphan : Db :=
  { Db.empty with
      sessions := [{ id := 5, user_tenant_id := 1, device_fingerprint := none,
                     is_revoked := false, last_accessed := 0, expires_at := none }],
      refreshTokens := [{ id := 6, session_id := some 5,
                          token_hash := hmac 50 REFRESH_HASH_SECRET,
                          issued_at := 0, expires_at := 1000, revoked_at := none,
                          replaced_by := none }],
      nextId := 7 }

/-- Witness instantiating refresh_missing_membership_mutates on the orphaned
session: the call errors after persisting the rotation. -/
theorem refresh_missing_membership_mutates_witness :
    refresh cexDbOrphan 50 5 10 51 =
      (.error .userSessionNotFound,
       { cexDbOrphan with
           refreshTokens :=
             cexDbOrphan.refreshTokens.map (fun t =>
               if t.id == 6 then
                 { t with revoked_at := some 10, replaced_by := some 7 }
               else t)
             ++ [freshTokenRow cexDbOrphan (some 5) 51 10],
           nextId := 8 }) :=
  refresh_missing_membership_mutates cexDbOrphan 50 5 10 51
    { id := 6, session_id := some 5, token_hash := hmac 50 REFRESH_HASH_SECRET,
      issued_at := 0, expires_at := 1000, revoked_at := none, replaced_by := none }
    { id := 5, user_tenant_id := 1, device_fingerprint := none,
      is_revoked := false, last_accessed := 0, expires_at := none }
    (by decide) (by decide) (by decide) (by decide) (by decide) (by decide)
    (by decide) (by decide) (by decide) (by decide)

/-- The otp_codes row that sendOtp persists, named for reuse in statements. -/
def otpRowOf (db : Db) (t s p code now ttl : Nat) : OtpCode :=
  { id := db.nextId, tenant_id := t, subject := s, purpose := p,
    code_hash := hmacOtp code OTP_HASH_SECRET, expires_at := now + ttl,
    consumed_at := none, attempts := 0, max_attempts := 5, created_at := now }

/-- C10: verifyOtp considers only the single most recently created live
challenge of the triple.  After a second OTP is issued for the same
(tenant, subject, purpose), presenting the first code, whose challenge is
still unexpired and unconsumed, is compared against the newest challenge and
fails as a mismatch, incrementing the newest challenge's attempt counter,
while the first challenge row is left untouched, neither consumed nor revoked:
issuing a new OTP silently supersedes all earlier live codes. -/
theorem verifyOtp_newest_supersedes (db : Db)
    (t s p c1 c2 now1 now2 now3 ttl1 ttl2 : Nat)
    (ht : t ≠ 0) (hs : s ≠ 0) (hp : p ≠ 0) (hc1 : c1 ≠ 0)
    (hcc : c1 ≠ c2) (h12 : now1 < now2)
    (hl1 : now3 < now1 + ttl1) (hl2 : now3 < now2 + ttl2)
    (hclean : ∀ o ∈ db.otps, otpMatches o t s p now3 = false)
    (hid : ∀ o ∈ db.otps, o.id ≠ db.nextId + 1) :
    otpMatches (otpRowOf db t s p c1 now1 ttl1) t s p now3 = true ∧
    latestLiveOtp (sendOtp (sendOtp db t s p c1 now1 ttl1).2
        t s p c2 now2 ttl2).2 t s p now3 =
      some (otpRowOf (sendOtp db t s p c1 now1 ttl1).2 t s p c2 now2 ttl2) ∧
    verifyOtp (sendOtp (sendOtp db t s p c1 now1 ttl1).2
        t s p c2 now2 ttl2).2 t s p c1 now3 =
      (.error .otpInvalidCode,
       { db with
           otps := db.otps ++
             [otpRowOf db t s p c1 now1 ttl1,
              { otpRowOf (sendOtp db t s p c1 now1 ttl1).2 t s p c2 now2 ttl2
                  with attempts := 1 }],
           nextId := db.nextId + 2 }) := by
  have hm1 : otpMatches (otpRowOf db t s p c1 now1 ttl1) t s p now3 = true := by
    simp [otpMatches, otpRowOf, hl1]
  have hdb2 : (sendOtp (sendOtp db t s p c1 now1 ttl1).2 t s p c2 now2 ttl2).2 =
      { db with
          otps := db.otps ++
            [otpRowOf db t s p c1 now1 ttl1,
             otpRowOf (sendOtp db t s p c1 now1 ttl1).2 t s p c2 now2 ttl2],
          nextId := db.nextId + 2 } := by
    simp [sendOtp, ht, hs, otpRowOf]
  have hfilter : ((sendOtp (sendOtp db t s p c1 now1 ttl1).2
      t s p c2 now2 ttl2).2.otps.filter (fun o => otpMatches o t s p now3)) =
      [otpRowOf db t s p c1 now1 ttl1,
       otpRowOf (sendOtp db t s p c1 now1 ttl1).2 t s p c2 now2 ttl2] := by
    rw [hdb2]
    have hnil : db.otps.filter (fun o => otpMatches o t s p now3) = [] := by
      rw [List.filter_eq_nil_iff]
      intro o ho
      simp [hclean o ho]
    have hm2 : otpMatches
        (otpRowOf (sendOtp db t s p c1 now1 ttl1).2 t s p c2 now2 ttl2)
        t s p now3 = true := by
      simp [otpMatches, otpRowOf, hl2]
    simp [List.filter_append, hnil, hm1, hm2]
  have hlatest : latestLiveOtp (sendOtp (sendOtp db t s p c1 now1 ttl1).2
      t s p c2 now2 ttl2).2 t s p now3 =
      some (otpRowOf (sendOtp db t s p c1 now1 ttl1).2 t s p c2 now2 ttl2) := by
    rw [latestLiveOtp, hfilter]
    simp [pickLater, otpRowOf, sendOtp, ht, hs, h12]
  refine ⟨hm1, hlatest, ?_⟩
  have hhash : ¬ (hmacOtp c1 OTP_HASH_SECRET =
      (otpRowOf (sendOtp db t s p c1 now1 ttl1).2 t s p c2 now2 ttl2).code_hash) := by
    simp [hmacOtp, otpRowOf, Nat.pair_eq_pair, hcc]
  simp only [verifyOtp, ht, hs, hp, hc1, hlatest]
  rw [if_neg (by simp [ht, hs, hp, hc1])]
  simp only [otpRowOf]
  rw [if_neg (by simp)]
  rw [if_pos (by simpa [otpRowOf] using hhash)]
  rw [hdb2]
  have hmapped : (db.otps ++
      [otpRowOf db t s p c1 now1 ttl1,
       otpRowOf (sendOtp db t s p c1 now1 ttl1).2 t s p c2 now2 ttl2]).map
        (fun o => if o.id == db.nextId + 1 then
            { o with attempts := o.attempts + 1 } else o) =
      db.otps ++
        [otpRowOf db t s p c1 now1 ttl1,
         { otpRowOf (sendOtp db t s p c1 now1 ttl1).2 t s p c2 now2 ttl2
             with attempts := 1 }] := by
    rw [List.map_append]
    congr 1
    · conv_rhs => rw [← List.map_id db.otps]
      refine List.map_congr_left ?_
      intro o ho
      simp [hid o ho]
    · simp [otpRowOf, sendOtp, ht, hs]
  simp [otpRowOf, sendOtp, ht, hs] at hmapped ⊢
  simp [hmapped]

/-- An otherwise empty store for the OTP superseding scenario. -/
def cexDbOtp : Db := { Db.empty with nextId := 20 }

/-- Witness instantiating verifyOtp_newest_supersedes: two OTPs for the same
triple, then presenting the first code fails against the newer challenge. -/
theorem verifyOtp_newest_supersedes_witness :
    (1 : Nat) ≠ 0 ∧ (2 : Nat) ≠ 0 ∧ (3 : Nat) ≠ 0 ∧ (44 : Nat) ≠ 0 ∧
    (44 : Nat) ≠ 55 ∧ (10 : Nat) < 11 ∧ (12 : Nat) < 10 + 300 ∧
    (12 : Nat) < 11 + 300 ∧
    verifyOtp (sendOtp (sendOtp cexDbOtp 1 2 3 44 10 300).2
        1 2 3 55 11 300).2 1 2 3 44 12 =
      (.error .otpInvalidCode,
       { cexDbOtp with
           otps := cexDbOtp.otps ++
             [otpRowOf cexDbOtp 1 2 3 44 10 300,
              { otpRowOf (sendOtp cexDbOtp 1 2 3 44 10 300).2 1 2 3 55 11 300
                  with attempts := 1 }],
           nextId := cexDbOtp.nextId + 2 }) :=
  ⟨by decide, by decide, by decide, by decide, by decide, by decide, by decide,
   by decide,
   (verifyOtp_newest_supersedes cexDbOtp 1 2 3 44 55 10 11 12 300 300
     (by decide) (by decide) (by decide) (by decide) (by decide) (by decide)
     (by decide) (by decide) (by decide) (by decide)).2.2⟩

end Ziva
